import Mathlib

/-!
Verification of the reservation intake and pricing path of the booking backend
(`backend/main.py`, `schemas.py`).

Shallow embedding conventions:
* Calendar dates are modelled as proleptic ordinals (`Int`), matching Python's
  `datetime.date.toordinal`; `(check_out - check_in).days` is the ordinal difference.
* Monetary values (`base_price`, `total_price`) are modelled as rationals; the
  Python code stores them as floats and the spec treats the arithmetic as exact.
* The database adapter (`database.py`: `db`, `create_document`, `get_documents`)
  is not part of the two source files; following the spec it is modelled as a
  generic create/query interface over typed records (see the `Modelled from the
  spec:` comments).
* A room-type lookup (`db["roomtype"].find_one(...)` wrapped in `try/except`)
  is modelled by an `Option RoomType` environment parameter: `none` covers both
  "no such document" and "lookup raised" (e.g. a malformed ObjectId).
* Pydantic validation of the `Reservation` model at construction time is
  modelled by `Reservation.isValid`; a failing construction (which in Python
  raises before any insert) is the `validationError` outcome.
* The SMTP transport is modelled by a `TransportOutcome` environment parameter
  saying whether the send would raise; everything transport-level is caught by
  the Python function's `except` clause. The one operation of `send_email`
  that is NOT protected — `int(os.getenv("SMTP_PORT", "587"))`, which runs
  before the host check and outside the `try/except` — is modelled explicitly:
  `send_email` returns `Except PyError Bool`, raising `valueError` when the
  raw `SMTP_PORT` string does not parse as an integer (`pyInt?`). An exception
  escaping an endpoint is turned into an HTTP 500 by the framework; the
  `httpOutcome` view maps a handler outcome to what the client observes.
-/

namespace Booking

/-- `schemas.ReservationGuest`: guest embedded in a reservation. -/
structure ReservationGuest where
  first_name : String
  last_name : String
  email : String
  phone : Option String
deriving Repr, DecidableEq

/-- `schemas.RoomType`: a room type document as stored in the `roomtype`
collection (fields as created through `CreateRoomTypeRequest`). -/
structure RoomType where
  property_id : String
  name : String
  description : Option String
  max_guests : Int
  base_price : ℚ
deriving Repr, DecidableEq

/-- `schemas.Reservation`: the reservation record persisted by both channels. -/
structure Reservation where
  property_id : String
  room_type_id : String
  check_in : Int
  check_out : Int
  guests : Int
  total_price : ℚ
  currency : String
  channel : String
  status : String
  guest : ReservationGuest
  special_requests : Option String
  confirmation_code : Option String
deriving Repr, DecidableEq

/-- The pydantic field constraints on `schemas.Reservation`
(`guests: ge=1`, `total_price: ge=0`, `currency: min_length=3, max_length=3`),
checked when the model is constructed, before any insert. -/
def Reservation.isValid (r : Reservation) : Bool :=
  decide (1 ≤ r.guests) && decide (0 ≤ r.total_price) && decide (r.currency.length = 3)

/-- `schemas.CreateReservationRequest`: the direct-booking request body. -/
structure CreateReservationRequest where
  property_id : String
  room_type_id : String
  check_in : Int
  check_out : Int
  guests : Int
  guest : ReservationGuest
  special_requests : Option String
deriving Repr, DecidableEq

/-- `main.OTAWebhookPayload`: the OTA webhook request body. -/
structure OTAWebhookPayload where
  property_id : String
  room_type_id : String
  check_in : Int
  check_out : Int
  guests : Int
  guest : ReservationGuest
  total_price : Option ℚ
  currency : Option String
  channel : String
  confirmation_code : Option String
deriving Repr, DecidableEq

/-- `schemas.AvailabilitySearch`: availability request body. -/
structure AvailabilitySearch where
  property_id : String
  check_in : Int
  check_out : Int
  guests : Int
deriving Repr, DecidableEq

/-- `schemas.AvailabilityResultItem`. -/
structure AvailabilityResultItem where
  room_type_id : String
  name : String
  description : Option String
  max_guests : Int
  nightly_price : ℚ
  available : Bool
deriving Repr, DecidableEq

/-- `schemas.EmailNotification` (the `sent_at` field is never set on this path).
The Python field `to` is a reserved token in Lean and is rendered `to_addr`. -/
structure EmailNotification where
  to_addr : String
  subject : String
  body : String
deriving Repr, DecidableEq

/-- A wall-clock UTC timestamp with second resolution, the input of
`datetime.utcnow().strftime('%Y%m%d%H%M%S')`-style formatting. -/
structure DateTime where
  year : Nat
  month : Nat
  day : Nat
  hour : Nat
  minute : Nat
  second : Nat
deriving Repr, DecidableEq

/-- Zero-pad the decimal rendering of `n` on the left to width `w`
(the behaviour of `strftime` field formatting). -/
def zeroPad (w : Nat) (n : Nat) : String :=
  let s := toString n
  String.mk (List.replicate (w - s.length) '0') ++ s

/-- `strftime('%Y%m%d%H%M%S')`: the 14-character compact timestamp
YYYYMMDDHHMMSS. -/
def DateTime.strftimeCompact (t : DateTime) : String :=
  zeroPad 4 t.year ++ zeroPad 2 t.month ++ zeroPad 2 t.day ++
    zeroPad 2 t.hour ++ zeroPad 2 t.minute ++ zeroPad 2 t.second

/-- `main.generate_confirmation_code`: `f"{pfx}-{datetime.utcnow().strftime('%Y%m%d%H%M%S')}"`.
The Python parameter is named `prefix` (default `"RES"`); call sites here pass
the prefix explicitly. -/
def generate_confirmation_code (pfx : String) (now : DateTime) : String :=
  pfx ++ "-" ++ now.strftimeCompact

/-- Environment variables read by the intake path. `smtp_host` is `SMTP_HOST`
(`none` = unset) and `smtp_port` the raw `SMTP_PORT` string, kept unparsed
because `send_email` runs `int()` on it outside any `try/except`;
`booking_notification_email` is `BOOKING_NOTIFICATION_EMAIL`.
`SMTP_USER`/`SMTP_PASS`/`SMTP_SENDER` only parameterise the concrete transport
session, which is abstracted by `TransportOutcome` (reading them cannot
raise). -/
structure Env where
  smtp_host : Option String
  smtp_port : Option String
  booking_notification_email : Option String
deriving Repr, DecidableEq

/-- An exception escaping to the caller; `valueError` is the `ValueError` that
`int()` raises on a non-numeric string. -/
inductive PyError where
  | valueError
deriving Repr, DecidableEq

/-- Whitespace stripped by Python's `int(str)` before parsing. -/
def pyIsSpace (ch : Char) : Bool :=
  [' ', '\t', '\n', '\r'].contains ch

/-- CPython's `int(str)`: strip surrounding whitespace, allow one optional
sign, then require a non-empty run of digits; anything else raises
`ValueError` (`none` here). Underscore digit grouping and non-ASCII digits are
not modelled; no input in this development uses them. -/
def pyInt? (s : String) : Option Int :=
  let t := ((s.toList.dropWhile pyIsSpace).reverse.dropWhile pyIsSpace).reverse
  let signAndDigits : Bool × List Char :=
    match t with
    | '-' :: rest => (true, rest)
    | '+' :: rest => (false, rest)
    | _ => (false, t)
  let ds := signAndDigits.2
  if ds ≠ [] ∧ ds.all Char.isDigit then
    -- 48 is the code point of the digit zero
    let n : Nat := ds.foldl (fun total ch => 10 * total + (ch.toNat - 48)) 0
    some (if signAndDigits.1 then -(n : Int) else (n : Int))
  else
    none

/-- Whether `send_email` considers SMTP configured: Python tests `if not host`,
so an unset variable and an empty string both count as unconfigured. -/
def Env.smtpConfigured (env : Env) : Bool :=
  match env.smtp_host with
  | none => false
  | some h => !(h == "")

/-- Outcome of the abstract SMTP transport: whether
`smtplib.SMTP(...) ... send_message(msg)` would complete or raise. -/
inductive TransportOutcome where
  | delivered
  | failed
deriving Repr, DecidableEq

/-- `main.send_email`. The function first runs
`port = int(os.getenv("SMTP_PORT", "587"))` — before the `if not host` check
and outside the `try/except` — so a non-integer `SMTP_PORT` raises
`ValueError` straight to the caller (`.error .valueError`). Past that parse it
never raises: with no host configured it logs and returns `True`; otherwise it
attempts the send and the `except` clause turns any transport exception into
`False`. -/
def send_email (env : Env) (transport : TransportOutcome) (_n : EmailNotification) :
    Except PyError Bool :=
  match pyInt? (env.smtp_port.getD "587") with
  | none => .error .valueError
  | some _port =>
    if env.smtpConfigured then
      match transport with
      | .delivered => .ok true
      | .failed => .ok false
    else
      .ok true

/-- The `reservation` collection together with the store's id generator.
Modelled from the spec: the document store adapter (`database.py`) is not among
the source files; the spec specifies it as a generic
`create(collection, record) -> id` with store-generated identifiers whose only
invariant is uniqueness. We model id generation by a counter. -/
structure Store where
  reservations : List (String × Reservation)
  nextId : Nat
deriving Repr, DecidableEq

/-- Modelled from the spec: `database.create_document("reservation", r)` —
inserts the record and returns a fresh store-generated identifier. -/
def Store.create_document (s : Store) (r : Reservation) : Store × String :=
  let res_id := "doc" ++ toString s.nextId
  ({ reservations := (res_id, r) :: s.reservations, nextId := s.nextId + 1 }, res_id)

/-- A `roomtype` collection document: store `_id` plus the record. -/
structure StoredRoomType where
  id : String
  data : RoomType
deriving Repr, DecidableEq

/-- Modelled from the spec: `database.get_documents("roomtype",
\x7b"property_id": pid\x7d)` — `query(collection, filter) -> records`, returning
the documents of the collection whose fields match the filter. -/
def get_documents_roomtype (roomtypes : List StoredRoomType) (pid : String) :
    List StoredRoomType :=
  roomtypes.filter (fun r => r.data.property_id == pid)

/-- The error taxonomy of the intake path: `notFound` is the HTTP 404
`HTTPException` ("Room type not found"), `invalidRange` the HTTP 400
("check_out must be after check_in"), and `validationError` a pydantic
`ValidationError` raised when constructing `Reservation` (which aborts the
handler before any insert). -/
inductive ApiError where
  | notFound
  | invalidRange
  | validationError
deriving Repr, DecidableEq

/-- The success body of both reservation endpoints:
`\x7b"id": res_id, "confirmation_code": confirmation_code\x7d`. -/
structure BookingResponse where
  id : String
  confirmation_code : String
deriving Repr, DecidableEq

/-- Everything an intake run that got past its domain checks produced: the
updated store, the computed response, the notification handed to `send_email`,
and `send_email`'s outcome — `.ok b` for the returned boolean (ignored by the
handlers) or `.error e` for an exception it raised, which escapes the handler
*after* the insert (see `httpOutcome`). -/
structure IntakeResult where
  store : Store
  response : BookingResponse
  email : EmailNotification
  email_sent : Except PyError Bool

/-- What the HTTP client observes for a handler outcome: domain errors keep
their status; a success returns the response — unless `send_email` raised, in
which case the exception escapes the handler before its `return` and the
framework answers 500 Internal Server Error (the insert, already done, is not
rolled back). -/
inductive HttpOutcome where
  | success (response : BookingResponse)
  | failure (e : ApiError)
  | serverError
deriving Repr, DecidableEq

def httpOutcome : Except ApiError IntakeResult → HttpOutcome
  | .error e => .failure e
  | .ok r =>
    match r.email_sent with
    | .ok _ => .success r.response
    | .error _ => .serverError

/-- The HTML body of the direct-channel notification (the f-string at
`main.py:179-188`). Python renders dates as `YYYY-MM-DD` and prices per float
`str`; the embedding renders the corresponding `Int`/`ℚ` values with
`toString`. -/
def direct_email_body (r : Reservation) (code : String) (nights : Int) : String :=
  "\n    <h2>New Reservation</h2>\n    <p><strong>Confirmation:</strong> "
    ++ code ++ "</p>\n    <p><strong>Property:</strong> "
    ++ r.property_id ++ "</p>\n    <p><strong>Room Type:</strong> "
    ++ r.room_type_id ++ "</p>\n    <p><strong>Dates:</strong> "
    ++ toString r.check_in ++ " to " ++ toString r.check_out
    ++ " (" ++ toString nights ++ " nights)</p>\n    <p><strong>Guest:</strong> "
    ++ r.guest.first_name ++ " " ++ r.guest.last_name ++ " (" ++ r.guest.email
    ++ ")</p>\n    <p><strong>Total:</strong> "
    ++ toString r.total_price ++ " " ++ r.currency
    ++ "</p>\n    <p><strong>Channel:</strong> " ++ r.channel ++ "</p>\n    "

/-- The `Reservation(...)` record built by `main.create_reservation`
(`main.py:159-172`): `total_price = float(rt.get("base_price", 0)) * nights`,
hard-coded `currency="USD"`, `channel="direct"`, `status="confirmed"`, and the
freshly generated `"RES"`-prefixed confirmation code. -/
def directReservation (payload : CreateReservationRequest) (rtv : RoomType)
    (now : DateTime) : Reservation :=
  { property_id := payload.property_id
    room_type_id := payload.room_type_id
    check_in := payload.check_in
    check_out := payload.check_out
    guests := payload.guests
    total_price := rtv.base_price * ((payload.check_out - payload.check_in : Int) : ℚ)
    currency := "USD"
    channel := "direct"
    status := "confirmed"
    guest := payload.guest
    special_requests := payload.special_requests
    confirmation_code := some (generate_confirmation_code "RES" now) }

/-- `main.create_reservation` (`POST /api/reservations`). `rt` is the outcome
of the `try: db["roomtype"].find_one(...) except: rt = None` lookup: `none`
covers a missing document and a lookup that raised. -/
def create_reservation (payload : CreateReservationRequest) (rt : Option RoomType)
    (now : DateTime) (env : Env) (transport : TransportOutcome) (store : Store) :
    Except ApiError IntakeResult :=
  match rt with
  | none => .error .notFound
  | some rtv =>
    let nights : Int := payload.check_out - payload.check_in
    if nights ≤ 0 then .error .invalidRange
    else
      let confirmation_code := generate_confirmation_code "RES" now
      let reservation := directReservation payload rtv now
      if reservation.isValid then
        let store' := (store.create_document reservation).1
        let res_id := (store.create_document reservation).2
        let to_email := env.booking_notification_email.getD reservation.guest.email
        let notif : EmailNotification :=
          { to_addr := to_email
            subject := "New Reservation " ++ confirmation_code
            body := direct_email_body reservation confirmation_code nights }
        .ok { store := store'
              response := { id := res_id, confirmation_code := confirmation_code }
              email := notif
              email_sent := send_email env transport notif }
      else .error .validationError

/-- The HTML body of the OTA-channel notification (the f-string at
`main.py:241-250`). -/
def ota_email_body (r : Reservation) (channel : String) (code : String)
    (nights : Int) : String :=
  "\n    <h2>OTA Reservation</h2>\n    <p><strong>Channel:</strong> "
    ++ channel ++ "</p>\n    <p><strong>Confirmation:</strong> "
    ++ code ++ "</p>\n    <p><strong>Property:</strong> "
    ++ r.property_id ++ "</p>\n    <p><strong>Room Type:</strong> "
    ++ r.room_type_id ++ "</p>\n    <p><strong>Dates:</strong> "
    ++ toString r.check_in ++ " to " ++ toString r.check_out
    ++ " (" ++ toString nights ++ " nights)</p>\n    <p><strong>Guest:</strong> "
    ++ r.guest.first_name ++ " " ++ r.guest.last_name ++ " (" ++ r.guest.email
    ++ ")</p>\n    <p><strong>Total:</strong> "
    ++ toString r.total_price ++ " " ++ r.currency ++ "</p>\n    "

/-- `confirmation_code = payload.confirmation_code or
generate_confirmation_code("OTA")` (`main.py:209`): Python truthiness means an
empty-string code is replaced by a generated one, exactly like `None`. -/
def otaConfirmationCode (payload : OTAWebhookPayload) (now : DateTime) : String :=
  match payload.confirmation_code with
  | some c => if c = "" then generate_confirmation_code "OTA" now else c
  | none => generate_confirmation_code "OTA" now

/-- The effective total price of an OTA push (`main.py:214-220`): a supplied
`total_price` is used as-is; otherwise `base_price * nights`, where a failed or
empty room-type lookup degrades `base_price` to `0.0`. -/
def otaEffectiveTotal (payload : OTAWebhookPayload) (rt : Option RoomType) : ℚ :=
  match payload.total_price with
  | some tp => tp
  | none =>
    (match rt with
     | some rtv => rtv.base_price
     | none => 0) * ((payload.check_out - payload.check_in : Int) : ℚ)

/-- `currency=payload.currency or "USD"` (`main.py:229`): `None` and the empty
string both fall back to `"USD"`. -/
def otaEffectiveCurrency (payload : OTAWebhookPayload) : String :=
  match payload.currency with
  | some c => if c = "" then "USD" else c
  | none => "USD"

/-- The `Reservation(...)` record built by `main.ota_webhook`
(`main.py:222-235`). -/
def otaReservation (payload : OTAWebhookPayload) (rt : Option RoomType)
    (now : DateTime) : Reservation :=
  { property_id := payload.property_id
    room_type_id := payload.room_type_id
    check_in := payload.check_in
    check_out := payload.check_out
    guests := payload.guests
    total_price := otaEffectiveTotal payload rt
    currency := otaEffectiveCurrency payload
    channel := payload.channel
    status := "confirmed"
    guest := payload.guest
    special_requests := none
    confirmation_code := some (otaConfirmationCode payload now) }

/-- `main.ota_webhook` (`POST /api/ota/webhook`). `rt` is the outcome of the
room-type lookup as in `create_reservation`; here a `none` lookup degrades the
base price to `0.0` instead of rejecting. -/
def ota_webhook (payload : OTAWebhookPayload) (rt : Option RoomType)
    (now : DateTime) (env : Env) (transport : TransportOutcome) (store : Store) :
    Except ApiError IntakeResult :=
  let confirmation_code := otaConfirmationCode payload now
  let nights : Int := payload.check_out - payload.check_in
  if nights ≤ 0 then .error .invalidRange
  else
    let reservation := otaReservation payload rt now
    if reservation.isValid then
      let store' := (store.create_document reservation).1
      let res_id := (store.create_document reservation).2
      let to_email := env.booking_notification_email.getD reservation.guest.email
      let notif : EmailNotification :=
        { to_addr := to_email
          subject := "OTA Reservation " ++ confirmation_code ++ " (" ++ payload.channel ++ ")"
          body := ota_email_body reservation payload.channel confirmation_code nights }
      .ok { store := store'
            response := { id := res_id, confirmation_code := confirmation_code }
            email := notif
            email_sent := send_email env transport notif }
    else .error .validationError

/-- `main.search_availability` (`POST /api/availability`): every room type of
the property, marked available at its base price. -/
def search_availability (payload : AvailabilitySearch)
    (roomtypes : List StoredRoomType) : List AvailabilityResultItem :=
  (get_documents_roomtype roomtypes payload.property_id).map (fun r =>
    { room_type_id := r.id
      name := r.data.name
      description := r.data.description
      max_guests := r.data.max_guests
      nightly_price := r.data.base_price
      available := true })

/-- Store-generated identifiers are never empty. -/
lemma doc_id_ne_empty (x : String) : "doc" ++ x ≠ "" := by
  intro h
  have hlen := congrArg String.length h
  rw [String.length_append] at hlen
  have h3 : ("doc" : String).length = 3 := rfl
  have h0 : ("" : String).length = 0 := rfl
  omega

/-- Anatomy of a successful direct booking: the night count was positive, the
constructed reservation passed validation, and the handler persisted exactly
`directReservation` under a fresh identifier, which it returned together with
the generated confirmation code. -/
lemma create_reservation_ok (payload : CreateReservationRequest) (rtv : RoomType)
    (now : DateTime) (env : Env) (t : TransportOutcome) (s : Store) (res : IntakeResult)
    (h : create_reservation payload (some rtv) now env t s = .ok res) :
    0 < payload.check_out - payload.check_in ∧
    (directReservation payload rtv now).isValid = true ∧
    res.store.reservations =
      (res.response.id, directReservation payload rtv now) :: s.reservations ∧
    res.response.confirmation_code = generate_confirmation_code "RES" now ∧
    res.response.id = "doc" ++ toString s.nextId := by
  simp only [create_reservation] at h
  split at h
  next hc => exact Except.noConfusion h
  next hc =>
    split at h
    next hval =>
      injection h with h
      subst h
      exact ⟨by omega, hval, rfl, rfl, rfl⟩
    next hval => exact Except.noConfusion h

/-- Anatomy of a successful OTA push, mirroring `create_reservation_ok`. -/
lemma ota_webhook_ok (payload : OTAWebhookPayload) (rt : Option RoomType)
    (now : DateTime) (env : Env) (t : TransportOutcome) (s : Store) (res : IntakeResult)
    (h : ota_webhook payload rt now env t s = .ok res) :
    0 < payload.check_out - payload.check_in ∧
    (otaReservation payload rt now).isValid = true ∧
    res.store.reservations =
      (res.response.id, otaReservation payload rt now) :: s.reservations ∧
    res.response.confirmation_code = otaConfirmationCode payload now ∧
    res.response.id = "doc" ++ toString s.nextId := by
  simp only [ota_webhook] at h
  split at h
  next hc => exact Except.noConfusion h
  next hc =>
    split at h
    next hval =>
      injection h with h
      subst h
      exact ⟨by omega, hval, rfl, rfl, rfl⟩
    next hval => exact Except.noConfusion h

/-- An OTA push with a valid date range whose constructed reservation passes
the schema validation does succeed. -/
lemma ota_webhook_ok_intro (payload : OTAWebhookPayload) (rt : Option RoomType)
    (now : DateTime) (env : Env) (t : TransportOutcome) (s : Store)
    (hn : 0 < payload.check_out - payload.check_in)
    (hv : (otaReservation payload rt now).isValid = true) :
    ∃ res, ota_webhook payload rt now env t s = .ok res := by
  have hc : ¬(payload.check_out - payload.check_in ≤ 0) := by omega
  cases hres : ota_webhook payload rt now env t s with
  | ok r => exact ⟨r, rfl⟩
  | error e =>
    simp only [ota_webhook] at hres
    rw [if_neg hc, if_pos hv] at hres
    exact Except.noConfusion hres

/-!
Concrete example data, shared by the witnesses below. The dates are the
proleptic ordinals of 2024-01-01 (738886) and 2024-01-04 (738889), the date
pair used by the spec's worked example (3 nights).
-/

def exGuest : ReservationGuest :=
  { first_name := "Ann", last_name := "Lee", email := "a@b.co", phone := none }

def exRT : RoomType :=
  { property_id := "p1", name := "Deluxe", description := none, max_guests := 2,
    base_price := 100 }

def exNow : DateTime :=
  { year := 2024, month := 1, day := 2, hour := 3, minute := 4, second := 5 }

def exEnv : Env :=
  { smtp_host := none, smtp_port := none, booking_notification_email := none }

def exEnvSmtp : Env :=
  { smtp_host := some "smtp.example.com", smtp_port := none,
    booking_notification_email := none }

/-- An environment with `SMTP_PORT` set to a non-numeric string — a routine
misconfiguration; note no SMTP host is configured either. -/
def exEnvBadPort : Env :=
  { smtp_host := none, smtp_port := some "abc", booking_notification_email := none }

def exNotif : EmailNotification :=
  { to_addr := "a@b.co", subject := "hello", body := "world" }

def exStore : Store := { reservations := [], nextId := 0 }

def exPayload : CreateReservationRequest :=
  { property_id := "p1", room_type_id := "r1", check_in := 738886, check_out := 738889,
    guests := 2, guest := exGuest, special_requests := none }

/-- A direct-booking request whose `check_out` precedes its `check_in`. -/
def exBadPayload : CreateReservationRequest :=
  { property_id := "p1", room_type_id := "r1", check_in := 738889, check_out := 738886,
    guests := 2, guest := exGuest, special_requests := none }

/-- An OTA push whose `check_out` precedes its `check_in`. -/
def exOtaBad : OTAWebhookPayload :=
  { property_id := "p1", room_type_id := "r1", check_in := 738889, check_out := 738886,
    guests := 2, guest := exGuest, total_price := none, currency := some "USD",
    channel := "booking.com", confirmation_code := none }

/-- An OTA push with neither a price override nor a confirmation code. -/
def exOtaNone : OTAWebhookPayload :=
  { property_id := "p1", room_type_id := "r1", check_in := 738886, check_out := 738889,
    guests := 2, guest := exGuest, total_price := none, currency := none,
    channel := "booking.com", confirmation_code := none }

/-- An OTA push supplying a negative `total_price` override. -/
def exOtaNeg : OTAWebhookPayload :=
  { property_id := "p1", room_type_id := "r1", check_in := 738886, check_out := 738889,
    guests := 2, guest := exGuest, total_price := some (-450), currency := some "USD",
    channel := "booking.com", confirmation_code := none }

/-- An OTA push supplying an external confirmation code and a price override. -/
def exOtaCode : OTAWebhookPayload :=
  { property_id := "p1", room_type_id := "r1", check_in := 738886, check_out := 738889,
    guests := 2, guest := exGuest, total_price := some 450, currency := some "USD",
    channel := "booking.com", confirmation_code := some "BDC-999" }

/-- An OTA push supplying an empty-string confirmation code. -/
def exOtaEmptyCode : OTAWebhookPayload :=
  { property_id := "p1", room_type_id := "r1", check_in := 738886, check_out := 738889,
    guests := 2, guest := exGuest, total_price := some 450, currency := some "USD",
    channel := "booking.com", confirmation_code := some "" }

/-- The reservation `create_reservation` persists for `exPayload`/`exRT`:
3 nights at base price 100 give total price 300. -/
def exDirectReservation : Reservation :=
  { property_id := "p1", room_type_id := "r1", check_in := 738886, check_out := 738889,
    guests := 2, total_price := 300, currency := "USD", channel := "direct",
    status := "confirmed", guest := exGuest, special_requests := none,
    confirmation_code := some "RES-20240102030405" }

def exDirectResult : IntakeResult :=
  { store := { reservations := [("doc0", exDirectReservation)], nextId := 1 },
    response := { id := "doc0", confirmation_code := "RES-20240102030405" },
    email :=
      { to_addr := "a@b.co",
        subject := "New Reservation RES-20240102030405",
        body := direct_email_body exDirectReservation "RES-20240102030405" 3 },
    email_sent := .ok true }

/-- Concrete run of the direct channel on the spec's worked example. -/
lemma exDirectEval :
    create_reservation exPayload (some exRT) exNow exEnv .delivered exStore =
      .ok exDirectResult := by
  norm_num [create_reservation, exPayload, exRT, exNow, exEnv, exStore, exGuest,
    directReservation, Reservation.isValid, Store.create_document,
    generate_confirmation_code, DateTime.strftimeCompact, zeroPad, send_email,
    Env.smtpConfigured, direct_email_body, exDirectResult, exDirectReservation]
  rfl

/-- The reservation `ota_webhook` persists for `exOtaCode`: supplied price and
code are used verbatim. -/
def exOtaCodeReservation : Reservation :=
  { property_id := "p1", room_type_id := "r1", check_in := 738886, check_out := 738889,
    guests := 2, total_price := 450, currency := "USD", channel := "booking.com",
    status := "confirmed", guest := exGuest, special_requests := none,
    confirmation_code := some "BDC-999" }

def exOtaCodeResult : IntakeResult :=
  { store := { reservations := [("doc0", exOtaCodeReservation)], nextId := 1 },
    response := { id := "doc0", confirmation_code := "BDC-999" },
    email :=
      { to_addr := "a@b.co",
        subject := "OTA Reservation BDC-999 (booking.com)",
        body := ota_email_body exOtaCodeReservation "booking.com" "BDC-999" 3 },
    email_sent := .ok true }

/-- Concrete run of the OTA channel on a push with supplied price and code. -/
lemma exOtaCodeEval :
    ota_webhook exOtaCode (some exRT) exNow exEnv .delivered exStore =
      .ok exOtaCodeResult := rfl

/-- Two room types of property `p1` and one of property `p2`. -/
def exRTS : List StoredRoomType :=
  [{ id := "r1", data := exRT },
   { id := "r2",
     data := { property_id := "p1", name := "Twin", description := some "two beds",
               max_guests := 3, base_price := 80 } },
   { id := "r3",
     data := { property_id := "p2", name := "Suite", description := none,
               max_guests := 4, base_price := 500 } }]

/-- Two availability searches for the same property with entirely different
dates and guest counts. -/
def exSearchA : AvailabilitySearch :=
  { property_id := "p1", check_in := 738886, check_out := 738889, guests := 2 }

def exSearchB : AvailabilitySearch :=
  { property_id := "p1", check_in := 739300, check_out := 739301, guests := 9 }

/-!
The claims.
-/

/-- Claim C1: for every direct booking request where the referenced room type
exists and the dates form a valid range, the persisted reservation's
`total_price` equals `room_type.base_price * nights` exactly, with
`nights = check_out - check_in` in whole days. (A success of the handler is
exactly the situation in which a reservation is persisted; the witness
instantiates the spec's example base_price=100, 3 nights, total 300.) -/
theorem claim_C1 (payload : CreateReservationRequest) (rtv : RoomType)
    (now : DateTime) (env : Env) (t : TransportOutcome) (s : Store) (res : IntakeResult)
    (h : create_reservation payload (some rtv) now env t s = .ok res) :
    ∃ resv, res.store.reservations = (res.response.id, resv) :: s.reservations ∧
      resv.total_price =
        rtv.base_price * ((payload.check_out - payload.check_in : Int) : ℚ) := by
  obtain ⟨-, -, hshape, -, -⟩ := create_reservation_ok payload rtv now env t s res h
  exact ⟨directReservation payload rtv now, hshape, rfl⟩

theorem claim_C1_witness :
    (∃ resv, exDirectResult.store.reservations =
        (exDirectResult.response.id, resv) :: exStore.reservations ∧
      resv.total_price =
        exRT.base_price * ((exPayload.check_out - exPayload.check_in : Int) : ℚ)) ∧
    exRT.base_price * ((exPayload.check_out - exPayload.check_in : Int) : ℚ) = 300 :=
  ⟨claim_C1 exPayload exRT exNow exEnv .delivered exStore exDirectResult exDirectEval,
   by norm_num [exRT, exPayload]⟩

/-- Claim C2 counterexample: a direct booking whose dates satisfy
`check_out ≤ check_in` but whose room-type lookup fails is rejected with
`NotFound`, not `InvalidRange` — the 404 check runs before date validation, so
the claim "rejected with InvalidRange regardless of channel" fails on this
input. -/
theorem claim_C2_counterexample :
    exBadPayload.check_out ≤ exBadPayload.check_in ∧
    create_reservation exBadPayload none exNow exEnv .delivered exStore =
      .error .notFound ∧
    ApiError.notFound ≠ ApiError.invalidRange :=
  ⟨by decide, rfl, by decide⟩

/-- Claim C2 (amended): for every request with `check_out ≤ check_in`, the OTA
channel rejects with `InvalidRange`; the direct channel rejects with
`InvalidRange` when the room-type lookup succeeds but with `NotFound` when it
fails (its room-type check runs first). In every case the handler returns an
error, so no reservation is persisted. -/
theorem claim_C2_amended (q : OTAWebhookPayload) (p : CreateReservationRequest)
    (rtv : RoomType) (rt : Option RoomType) (now : DateTime) (env : Env)
    (t : TransportOutcome) (s : Store)
    (hq : q.check_out ≤ q.check_in) (hp : p.check_out ≤ p.check_in) :
    ota_webhook q rt now env t s = .error .invalidRange ∧
    create_reservation p (some rtv) now env t s = .error .invalidRange ∧
    create_reservation p none now env t s = .error .notFound := by
  refine ⟨?_, ?_, rfl⟩
  · simp only [ota_webhook]
    rw [if_pos (by omega)]
  · simp only [create_reservation]
    rw [if_pos (by omega)]

theorem claim_C2_witness :
    ota_webhook exOtaBad (some exRT) exNow exEnv .delivered exStore =
      .error .invalidRange ∧
    create_reservation exBadPayload (some exRT) exNow exEnv .delivered exStore =
      .error .invalidRange ∧
    create_reservation exBadPayload none exNow exEnv .delivered exStore =
      .error .notFound :=
  claim_C2_amended exOtaBad exBadPayload exRT (some exRT) exNow exEnv .delivered exStore
    (by decide) (by decide)

/-- Claim C3: every direct booking whose room-type lookup fails — a missing
document or a malformed identifier whose lookup raises, both of which leave
`rt = None` — is rejected with `NotFound`, and (the handler returning an
error) no reservation is persisted. -/
theorem claim_C3 (payload : CreateReservationRequest) (now : DateTime) (env : Env)
    (t : TransportOutcome) (s : Store) :
    create_reservation payload none now env t s = .error .notFound := rfl

/-- Claim C4 counterexample: an OTA webhook request with valid dates supplying
`total_price = -450` is NOT persisted as-is — the `Reservation` schema
validation (`total_price ≥ 0`) fails at construction, so the handler errors
and nothing is persisted, contradicting "if total_price is supplied by the
caller it is persisted as-is". -/
theorem claim_C4_counterexample :
    exOtaNeg.total_price = some (-450) ∧
    0 < exOtaNeg.check_out - exOtaNeg.check_in ∧
    ota_webhook exOtaNeg (some exRT) exNow exEnv .delivered exStore =
      .error .validationError :=
  ⟨rfl, by decide, rfl⟩

/-- Claim C4 (amended): for every OTA webhook request with valid dates
*whose constructed reservation passes the `Reservation` schema validation*
(in particular a supplied `total_price` must be ≥ 0): a supplied `total_price`
is persisted as-is; an absent one is derived as `base_price * nights`, falling
back to base price 0 when the room-type lookup fails — and in the fallback
case the reservation is still created rather than rejected. -/
theorem claim_C4_amended (payload : OTAWebhookPayload) (rt : Option RoomType)
    (now : DateTime) (env : Env) (t : TransportOutcome) (s : Store) :
    (∀ res, ota_webhook payload rt now env t s = .ok res →
      ∃ resv, res.store.reservations = (res.response.id, resv) :: s.reservations ∧
        (∀ tp, payload.total_price = some tp → resv.total_price = tp) ∧
        (payload.total_price = none → ∀ rtv, rt = some rtv →
          resv.total_price =
            rtv.base_price * ((payload.check_out - payload.check_in : Int) : ℚ)) ∧
        (payload.total_price = none → rt = none → resv.total_price = 0)) ∧
    (0 < payload.check_out - payload.check_in →
      (otaReservation payload rt now).isValid = true →
      ∃ res, ota_webhook payload rt now env t s = .ok res) := by
  constructor
  · intro res h
    obtain ⟨-, -, hshape, -, -⟩ := ota_webhook_ok payload rt now env t s res h
    refine ⟨otaReservation payload rt now, hshape, ?_, ?_, ?_⟩
    · intro tp htp
      simp [otaReservation, otaEffectiveTotal, htp]
    · intro htp rtv hrt
      simp [otaReservation, otaEffectiveTotal, htp, hrt]
    · intro htp hrt
      simp [otaReservation, otaEffectiveTotal, htp, hrt]
  · intro hn hv
    exact ota_webhook_ok_intro payload rt now env t s hn hv

theorem claim_C4_witness :
    (∃ res, ota_webhook exOtaNone none exNow exEnv .delivered exStore = .ok res) ∧
    otaEffectiveTotal exOtaNone none = 0 :=
  ⟨(claim_C4_amended exOtaNone none exNow exEnv .delivered exStore).2 (by decide)
     (by
       norm_num [otaReservation, Reservation.isValid, otaEffectiveTotal,
         otaEffectiveCurrency, exOtaNone]
       rfl),
   by norm_num [otaEffectiveTotal, exOtaNone]⟩

/-- Claim C5 counterexample: supplying the empty string as `confirmation_code`
is "supplying a confirmation_code", but Python's `payload.confirmation_code or
generate_confirmation_code("OTA")` treats it as falsy: the response code is a
generated `OTA-` code, not the supplied (empty) one verbatim. -/
theorem claim_C5_counterexample :
    exOtaEmptyCode.confirmation_code = some "" ∧
    (ota_webhook exOtaEmptyCode (some exRT) exNow exEnv .delivered exStore).map
      (fun r => r.response.confirmation_code) = .ok "OTA-20240102030405" ∧
    ("OTA-20240102030405" : String) ≠ "" :=
  ⟨rfl, rfl, by decide⟩

/-- Claim C5 (amended): for every successful OTA webhook request, a supplied
*non-empty* `confirmation_code` is used verbatim in the persisted reservation
and the response; an absent or empty one is replaced by a generated code with
prefix `OTA-` (instead of `RES-`), the `OTA-`-prefixed compact UTC timestamp. -/
theorem claim_C5_amended (payload : OTAWebhookPayload) (rt : Option RoomType)
    (now : DateTime) (env : Env) (t : TransportOutcome) (s : Store) (res : IntakeResult)
    (h : ota_webhook payload rt now env t s = .ok res) :
    ∃ resv, res.store.reservations = (res.response.id, resv) :: s.reservations ∧
      (∀ c, payload.confirmation_code = some c → c ≠ "" →
        res.response.confirmation_code = c ∧ resv.confirmation_code = some c) ∧
      ((payload.confirmation_code = none ∨ payload.confirmation_code = some "") →
        res.response.confirmation_code = "OTA-" ++ now.strftimeCompact ∧
        resv.confirmation_code = some ("OTA-" ++ now.strftimeCompact)) := by
  obtain ⟨-, -, hshape, hcode, -⟩ := ota_webhook_ok payload rt now env t s res h
  refine ⟨otaReservation payload rt now, hshape, ?_, ?_⟩
  · intro c hc hne
    constructor
    · rw [hcode]
      simp [otaConfirmationCode, hc, hne]
    · simp [otaReservation, otaConfirmationCode, hc, hne]
  · intro hc
    have hgen : otaConfirmationCode payload now = "OTA-" ++ now.strftimeCompact := by
      rcases hc with hc | hc <;>
        simp [otaConfirmationCode, hc, generate_confirmation_code]
    refine ⟨by rw [hcode, hgen], ?_⟩
    simp [otaReservation, hgen]

theorem claim_C5_witness :
    (∃ resv, exOtaCodeResult.store.reservations =
        (exOtaCodeResult.response.id, resv) :: exStore.reservations ∧
      (∀ c, exOtaCode.confirmation_code = some c → c ≠ "" →
        exOtaCodeResult.response.confirmation_code = c ∧ resv.confirmation_code = some c) ∧
      ((exOtaCode.confirmation_code = none ∨ exOtaCode.confirmation_code = some "") →
        exOtaCodeResult.response.confirmation_code = "OTA-" ++ exNow.strftimeCompact ∧
        resv.confirmation_code = some ("OTA-" ++ exNow.strftimeCompact))) ∧
    exOtaCodeResult.response.confirmation_code = "BDC-999" :=
  ⟨claim_C5_amended exOtaCode (some exRT) exNow exEnv .delivered exStore
     exOtaCodeResult exOtaCodeEval, rfl⟩

/-- Claim C6: every reservation the direct channel persists carries currency
exactly `"USD"`, channel `"direct"` and status `"confirmed"`, whatever the
request contained (the handler hard-codes all three fields). -/
theorem claim_C6 (payload : CreateReservationRequest) (rt : Option RoomType)
    (now : DateTime) (env : Env) (t : TransportOutcome) (s : Store) (res : IntakeResult)
    (h : create_reservation payload rt now env t s = .ok res) :
    ∃ resv, res.store.reservations = (res.response.id, resv) :: s.reservations ∧
      resv.currency = "USD" ∧ resv.channel = "direct" ∧ resv.status = "confirmed" := by
  match rt with
  | none => exact absurd h (by simp [create_reservation])
  | some rtv =>
    obtain ⟨-, -, hshape, -, -⟩ := create_reservation_ok payload rtv now env t s res h
    exact ⟨directReservation payload rtv now, hshape, rfl, rfl, rfl⟩

theorem claim_C6_witness :
    ∃ resv, exDirectResult.store.reservations =
        (exDirectResult.response.id, resv) :: exStore.reservations ∧
      resv.currency = "USD" ∧ resv.channel = "direct" ∧ resv.status = "confirmed" :=
  claim_C6 exPayload (some exRT) exNow exEnv .delivered exStore exDirectResult exDirectEval

/-- Claim C7: every successful direct booking responds with a non-empty
store-generated identifier and with the confirmation code
`"RES-" ++ now.strftimeCompact`, i.e. `"RES-"` followed by the current UTC
timestamp rendered `YYYYMMDDHHMMSS` — in particular the code is
`RES-`-prefixed. -/
theorem claim_C7 (payload : CreateReservationRequest) (rtv : RoomType)
    (now : DateTime) (env : Env) (t : TransportOutcome) (s : Store) (res : IntakeResult)
    (h : create_reservation payload (some rtv) now env t s = .ok res) :
    res.response.id ≠ "" ∧
    res.response.confirmation_code = "RES-" ++ now.strftimeCompact := by
  obtain ⟨-, -, -, hcode, hid⟩ := create_reservation_ok payload rtv now env t s res h
  constructor
  · rw [hid]
    exact doc_id_ne_empty _
  · rw [hcode]
    rfl

theorem claim_C7_witness :
    (exDirectResult.response.id ≠ "" ∧
      exDirectResult.response.confirmation_code = "RES-" ++ exNow.strftimeCompact) ∧
    "RES-" ++ exNow.strftimeCompact = "RES-20240102030405" :=
  ⟨claim_C7 exPayload exRT exNow exEnv .delivered exStore exDirectResult exDirectEval,
   rfl⟩

/-- Claim C8: an availability search returns exactly the room types whose
`property_id` matches the requested property, each marked available at its
base price; the requested dates and guest count never influence the result
(two searches for the same property agree on any store contents). -/
theorem claim_C8 (p q : AvailabilitySearch) (rts : List StoredRoomType) :
    (p.property_id = q.property_id →
      search_availability p rts = search_availability q rts) ∧
    (∀ item, item ∈ search_availability p rts ↔
      ∃ r, r ∈ rts ∧ r.data.property_id = p.property_id ∧
        item = { room_type_id := r.id, name := r.data.name,
                 description := r.data.description, max_guests := r.data.max_guests,
                 nightly_price := r.data.base_price, available := true }) := by
  constructor
  · intro h
    simp [search_availability, get_documents_roomtype, h]
  · intro item
    simp only [search_availability, get_documents_roomtype, List.mem_map,
      List.mem_filter, beq_iff_eq]
    constructor
    · rintro ⟨r, ⟨hr, hpid⟩, rfl⟩
      exact ⟨r, hr, hpid, rfl⟩
    · rintro ⟨r, hr, hpid, rfl⟩
      exact ⟨r, ⟨hr, hpid⟩, rfl⟩

theorem claim_C8_witness :
    search_availability exSearchA exRTS = search_availability exSearchB exRTS :=
  (claim_C8 exSearchA exSearchB exRTS).1 rfl

/-- The result of the concrete bad-port run: identical to `exDirectResult`
except that `send_email` raised instead of returning a boolean. -/
def exBadPortResult : IntakeResult :=
  { exDirectResult with email_sent := .error .valueError }

/-- Concrete run of the direct channel under `exEnvBadPort`: the insert and
response computation happen exactly as in `exDirectEval`, but `send_email`
raises. -/
lemma exBadPortEval :
    create_reservation exPayload (some exRT) exNow exEnvBadPort .delivered exStore =
      .ok exBadPortResult := by
  norm_num [create_reservation, exPayload, exRT, exNow, exEnvBadPort, exStore, exGuest,
    directReservation, Reservation.isValid, Store.create_document,
    generate_confirmation_code, DateTime.strftimeCompact, zeroPad, send_email,
    Env.smtpConfigured, direct_email_body, exBadPortResult, exDirectResult,
    exDirectReservation]
  rfl

/-- Claim C9 counterexample: with `SMTP_PORT` set to a non-numeric string and
no SMTP host configured at all, `send_email` raises `ValueError` (the
`int(os.getenv("SMTP_PORT", "587"))` parse runs before the host check and
outside the `try/except`), the raise escapes the direct intake handler after
the insert, and the booking request fails with a 500 — refuting "never raises
to the intake paths", "with no SMTP host configured it logs the message and
reports success", and "a dispatch failure does not fail the booking request".
Only the no-rollback part survives: the reservation is still persisted. -/
theorem claim_C9_counterexample :
    exEnvBadPort.smtp_host = none ∧
    send_email exEnvBadPort .delivered exNotif = .error .valueError ∧
    create_reservation exPayload (some exRT) exNow exEnvBadPort .delivered exStore =
      .ok exBadPortResult ∧
    exBadPortResult.email_sent = .error .valueError ∧
    httpOutcome
      (create_reservation exPayload (some exRT) exNow exEnvBadPort .delivered exStore) =
      .serverError ∧
    exBadPortResult.store.reservations =
      [(exBadPortResult.response.id, exDirectReservation)] := by
  refine ⟨rfl, rfl, exBadPortEval, rfl, ?_, rfl⟩
  rw [exBadPortEval]
  rfl

/-- Claim C9 (amended): provided `SMTP_PORT` (default `"587"`) parses as an
integer, notification dispatch never raises to the intake paths — with no
SMTP host configured it logs the message and reports success, and any
transport-level failure is caught and reported as boolean `False`; the intake
handlers ignore that boolean, so the persisted store and the computed response
are independent of the transport outcome. If `SMTP_PORT` is a non-integer
string, however, `send_email` raises `ValueError`, and the exception escapes
both intake handlers and fails the request with a 500 — but only after the
insert, so even then the persisted reservation is not rolled back. -/
theorem claim_C9_amended (env : Env) (t t' : TransportOutcome) (n : EmailNotification)
    (p : CreateReservationRequest) (rt : Option RoomType) (q : OTAWebhookPayload)
    (rt' : Option RoomType) (now : DateTime) (s : Store) :
    ((pyInt? (env.smtp_port.getD "587")).isSome = true →
      (env.smtpConfigured = false → send_email env t n = .ok true) ∧
      (env.smtpConfigured = true → send_email env .failed n = .ok false)) ∧
    (pyInt? (env.smtp_port.getD "587") = none →
      send_email env t n = .error .valueError) ∧
    ((create_reservation p rt now env t s).map (fun r => (r.store, r.response)) =
      (create_reservation p rt now env t' s).map (fun r => (r.store, r.response))) ∧
    ((ota_webhook q rt' now env t s).map (fun r => (r.store, r.response)) =
      (ota_webhook q rt' now env t' s).map (fun r => (r.store, r.response))) ∧
    (∀ res, create_reservation p rt now env t s = .ok res →
      (∃ resv, res.store.reservations = (res.response.id, resv) :: s.reservations) ∧
      ∀ e, res.email_sent = .error e →
        httpOutcome (create_reservation p rt now env t s) = .serverError) ∧
    (∀ res, ota_webhook q rt' now env t s = .ok res →
      (∃ resv, res.store.reservations = (res.response.id, resv) :: s.reservations) ∧
      ∀ e, res.email_sent = .error e →
        httpOutcome (ota_webhook q rt' now env t s) = .serverError) := by
  refine ⟨?_, ?_, ?_, ?_, ?_, ?_⟩
  · intro hport
    obtain ⟨v, hv⟩ := Option.isSome_iff_exists.mp hport
    constructor
    · intro h
      simp [send_email, hv, h]
    · intro h
      simp [send_email, hv, h]
  · intro hnone
    simp [send_email, hnone]
  · cases rt with
    | none => rfl
    | some rtv =>
      simp only [create_reservation]
      split
      · rfl
      · split <;> rfl
  · simp only [ota_webhook]
    split
    · rfl
    · split <;> rfl
  · intro res h
    match rt with
    | none => exact absurd h (by simp [create_reservation])
    | some rtv =>
      obtain ⟨-, -, hshape, -, -⟩ := create_reservation_ok p rtv now env t s res h
      refine ⟨⟨directReservation p rtv now, hshape⟩, ?_⟩
      intro e he
      rw [h]
      simp [httpOutcome, he]
  · intro res h
    obtain ⟨-, -, hshape, -, -⟩ := ota_webhook_ok q rt' now env t s res h
    refine ⟨⟨otaReservation q rt' now, hshape⟩, ?_⟩
    intro e he
    rw [h]
    simp [httpOutcome, he]

theorem claim_C9_witness :
    send_email exEnv .failed exNotif = .ok true ∧
    send_email exEnvSmtp .failed exNotif = .ok false ∧
    send_email exEnvBadPort .delivered exNotif = .error .valueError ∧
    (∃ resv, exDirectResult.store.reservations =
        (exDirectResult.response.id, resv) :: exStore.reservations) :=
  ⟨((claim_C9_amended exEnv .failed .delivered exNotif exPayload (some exRT) exOtaNone
      none exNow exStore).1 (by decide)).1 (by decide),
   ((claim_C9_amended exEnvSmtp .failed .delivered exNotif exPayload (some exRT)
      exOtaNone none exNow exStore).1 (by decide)).2 (by decide),
   (claim_C9_amended exEnvBadPort .delivered .delivered exNotif exPayload (some exRT)
      exOtaNone none exNow exStore).2.1 (by decide),
   ((claim_C9_amended exEnv .delivered .failed exNotif exPayload (some exRT) exOtaNone
      none exNow exStore).2.2.2.2.1 exDirectResult exDirectEval).1⟩

/-- Claim C10: every reservation either channel persists satisfies
`total_price ≥ 0`, `guests ≥ 1` and a 3-character currency, because the
`Reservation` schema validates these bounds at construction, before the
insert; consequently an OTA webhook request supplying a negative `total_price`
override can never result in a persisted reservation. -/
theorem claim_C10 (p : CreateReservationRequest) (rt : Option RoomType)
    (q : OTAWebhookPayload) (rt' : Option RoomType) (now : DateTime) (env : Env)
    (t : TransportOutcome) (s : Store) :
    (∀ res, create_reservation p rt now env t s = .ok res →
      ∃ resv, res.store.reservations = (res.response.id, resv) :: s.reservations ∧
        0 ≤ resv.total_price ∧ 1 ≤ resv.guests ∧ resv.currency.length = 3) ∧
    (∀ res, ota_webhook q rt' now env t s = .ok res →
      ∃ resv, res.store.reservations = (res.response.id, resv) :: s.reservations ∧
        0 ≤ resv.total_price ∧ 1 ≤ resv.guests ∧ resv.currency.length = 3) ∧
    (∀ tp, q.total_price = some tp → tp < 0 →
      ∀ res, ota_webhook q rt' now env t s ≠ .ok res) := by
  refine ⟨?_, ?_, ?_⟩
  · intro res h
    match rt with
    | none => exact absurd h (by simp [create_reservation])
    | some rtv =>
      obtain ⟨-, hval, hshape, -, -⟩ := create_reservation_ok p rtv now env t s res h
      simp only [Reservation.isValid, Bool.and_eq_true, decide_eq_true_eq] at hval
      exact ⟨directReservation p rtv now, hshape, hval.1.2, hval.1.1, hval.2⟩
  · intro res h
    obtain ⟨-, hval, hshape, -, -⟩ := ota_webhook_ok q rt' now env t s res h
    simp only [Reservation.isValid, Bool.and_eq_true, decide_eq_true_eq] at hval
    exact ⟨otaReservation q rt' now, hshape, hval.1.2, hval.1.1, hval.2⟩
  · intro tp htp hneg res h
    obtain ⟨-, hval, -, -, -⟩ := ota_webhook_ok q rt' now env t s res h
    simp only [Reservation.isValid, Bool.and_eq_true, decide_eq_true_eq,
      otaReservation, otaEffectiveTotal, htp] at hval
    exact absurd hval.1.2 (by linarith)

theorem claim_C10_witness :
    (∃ resv, exDirectResult.store.reservations =
        (exDirectResult.response.id, resv) :: exStore.reservations ∧
      0 ≤ resv.total_price ∧ 1 ≤ resv.guests ∧ resv.currency.length = 3) ∧
    ota_webhook exOtaNeg (some exRT) exNow exEnv .delivered exStore ≠
      .ok exDirectResult :=
  ⟨(claim_C10 exPayload (some exRT) exOtaNeg (some exRT) exNow exEnv .delivered
      exStore).1 exDirectResult exDirectEval,
   (claim_C10 exPayload (some exRT) exOtaNeg (some exRT) exNow exEnv .delivered
      exStore).2.2 (-450) rfl (by norm_num) exDirectResult⟩

end Booking
